import Mathlib

/-!
# aeinfo: the App Engine information handler

A shallow embedding of `aeinfo.go`: the report aggregator `Gather`, the HTTP
handler `aeinfoHandler` and `serveError`.

The platform services the program calls (memcache, taskqueue, module, runtime,
user, the static `appengine` accessors) are inputs: an `Env` records what each
call returns for the request at hand. The calls the program makes are observable
in two logs: the statistics queries issued (`Query`) and the calls made on the
`http.ResponseWriter` (`WriterCall`). A Go run-time panic is an explicit outcome.
-/

namespace Aeinfo

/-! ## Go values -/

/-- A Go `error` value. Errors are compared by identity in the program
(`err != memcache.ErrNoStats`), so the sentinel is a constructor of its own and every
other error value is `mk msg`, whatever its message. -/
inductive GoError where
  | ErrNoStats
  | mk (msg : String)
  deriving DecidableEq, Repr

/-- The `Error()` method: the message of an error value. -/
def GoError.Error : GoError → String
  | .ErrNoStats => "memcache: no statistics available"
  | .mk msg => msg

/-- The error built by `fmt.Errorf(msg)` for a format string without verbs. -/
def fmtErrorf (msg : String) : GoError := .mk msg

/-- A `float64`, carried as its 64-bit pattern: the program only copies such values. -/
structure Float64 where
  bits : Nat
  deriving DecidableEq, Repr

/-- A `time.Time`, as seconds and nanoseconds: the program only copies such values. -/
structure Time where
  sec : Int
  nsec : Nat
  deriving DecidableEq, Repr

/-- The result of running Go code that may panic. -/
inductive Outcome (α : Type) where
  | ret (a : α)
  | panic (msg : String)
  deriving DecidableEq, Repr

/-! ## Platform records (package `appengine/...`) -/

/-- Record `memcache.Statistics`. -/
structure MemcacheStatistics where
  Hits : Nat
  Misses : Nat
  ByteHits : Nat
  Items : Nat
  Bytes : Nat
  Oldest : Int
  deriving DecidableEq, Repr

/-- Record `taskqueue.QueueStatistics`. -/
structure QueueStatistics where
  Tasks : Int
  OldestETA : Time
  Executed1Minute : Int
  InFlight : Int
  EnforcedRate : Float64
  deriving DecidableEq, Repr

/-- The `CPU` part of `runtime.Statistics`. -/
structure RuntimeCPU where
  Total : Float64
  Rate1M : Float64
  Rate10M : Float64
  deriving DecidableEq, Repr

/-- The `RAM` part of `runtime.Statistics`. -/
structure RuntimeRAM where
  Current : Float64
  Average1M : Float64
  Average10M : Float64
  deriving DecidableEq, Repr

/-- Record `runtime.Statistics` (package `appengine/runtime`). -/
structure RuntimeStatistics where
  CPU : RuntimeCPU
  RAM : RuntimeRAM
  deriving DecidableEq, Repr

/-- Record `user.User`, the two fields the program reads. -/
structure User where
  Email : String
  Admin : Bool
  deriving DecidableEq, Repr

/-! ## The report types of `aeinfo.go` -/

structure Module where
  Name : String
  Versions : List String
  deriving DecidableEq, Repr

structure CPU where
  Total : Float64
  Rate1M : Float64
  Rate10M : Float64
  deriving DecidableEq, Repr

structure RAM where
  Current : Float64
  Average1M : Float64
  Average10M : Float64
  deriving DecidableEq, Repr

structure Memcache where
  Hits : Nat
  Misses : Nat
  ByteHits : Nat
  Items : Nat
  Bytes : Nat
  Oldest : Int
  deriving DecidableEq, Repr

structure Taskqueue where
  Name : String
  Tasks : Int
  OldestETA : Time
  Executed1Minute : Int
  InFlight : Int
  EnforcedRate : Float64
  deriving DecidableEq, Repr

structure Caller where
  RemoteAddr : String
  UserAgent : String
  Country : String
  Region : String
  City : String
  CityLatLong : String
  Email : String
  deriving DecidableEq, Repr

structure Info where
  AppID : String
  Datacenter : String
  DefaultVersionHostname : String
  InstanceID : String
  IsDevAppServer : Bool
  ModuleName : String
  ServerSoftware : String
  VersionID : String
  ServerTime : Time
  GoVersion : String
  CPU : CPU
  RAM : RAM
  Modules : List Module
  Memcache : Memcache
  Taskqueue : Taskqueue
  Caller : Caller
  deriving DecidableEq, Repr

/-- The zero value of `Memcache` (`var ms Memcache`). -/
def Memcache.zero : Memcache :=
  { Hits := 0, Misses := 0, ByteHits := 0, Items := 0, Bytes := 0, Oldest := 0 }

/-! ## The request and the platform -/

/-- The parts of `*http.Request` the program reads. -/
structure Request where
  /-- Field `r.RemoteAddr`. -/
  RemoteAddr : String
  /-- Lookup `r.Header.Get(key)`. -/
  HeaderGet : String → String
  /-- Rendering `r.URL.String()`. -/
  URLString : String

/-- Method `r.UserAgent()`: the User-Agent header. -/
def Request.UserAgent (r : Request) : String := r.HeaderGet "User-Agent"

/-- What the platform answers to each call made while serving one request. -/
structure Env where
  /-- Call `appengine.IsDevAppServer()`. -/
  IsDevAppServer : Bool
  /-- Call `user.Current(c)`; `none` is the nil user. -/
  userCurrent : Option User
  /-- Call `user.LoginURL(c, dest)`. -/
  userLoginURL : String → Except GoError String
  /-- Call `memcache.Stats(c)`. -/
  memcacheStats : Except GoError MemcacheStatistics
  /-- Call `taskqueue.QueueStats(c, queueNames, maxTasks)`. -/
  taskqueueQueueStats : List String → Int → Except GoError (List QueueStatistics)
  /-- Call `module.List(c)`. -/
  moduleList : Except GoError (List String)
  /-- Call `module.Versions(c, name)`. -/
  moduleVersions : String → Except GoError (List String)
  /-- Call `aeruntime.Stats(c)`. -/
  runtimeStats : Except GoError RuntimeStatistics
  AppID : String
  Datacenter : String
  DefaultVersionHostname : String
  InstanceID : String
  ModuleName : String
  ServerSoftware : String
  VersionID : String
  /-- Call `time.Now()`. -/
  timeNow : Time
  /-- Call `runtime.Version()`. -/
  runtimeVersion : String
  /-- What `json.Marshal` gives for a non-nil `*Info` (it fails on a NaN or infinite
  float). -/
  jsonMarshal : Info → Except GoError String

/-- A statistics query issued by `Gather`. -/
inductive Query where
  | memcacheStats
  | taskqueueQueueStats (queueNames : List String) (maxTasks : Int)
  | moduleList
  | moduleVersions (name : String)
  | runtimeStats
  deriving DecidableEq, Repr

/-! ## `Gather` -/

/-- The pair `(*Info, error)` a call of `Gather` returns; `none` is nil. -/
structure GatherReturn where
  info : Option Info
  err : Option GoError
  deriving DecidableEq, Repr

/-- The loop `for _, n := range mnames` of `Gather`: `modules` is the slice built so
far, `qs` the queries issued so far. It stops at the first failing
`module.Versions`. -/
def gatherModules (env : Env) :
    List String → List Module → List Query → Except GoError (List Module) × List Query
  | [], modules, qs => (.ok modules, qs)
  | n :: rest, modules, qs =>
    match env.moduleVersions n with
    | .error err => (.error err, qs ++ [Query.moduleVersions n])
    | .ok versions =>
      let m : Module := { Name := n, Versions := versions }
      gatherModules env rest (modules ++ [m]) (qs ++ [Query.moduleVersions n])

/-- The function `Gather(c, r)`, with the list of statistics queries it issued. -/
def Gather (env : Env) (r : Request) : Outcome GatherReturn × List Query :=
  let qs1 := [Query.memcacheStats]
  match (match env.memcacheStats with
         | .error err => if err ≠ GoError.ErrNoStats then Except.error err else .ok Memcache.zero
         | .ok memstats => .ok
            { Hits := memstats.Hits
              Misses := memstats.Misses
              ByteHits := memstats.ByteHits
              Items := memstats.Items
              Bytes := memstats.Bytes
              Oldest := memstats.Oldest : Memcache }) with
  | .error err => (.ret { info := none, err := some err }, qs1)
  | .ok ms =>
  let qs2 := qs1 ++ [Query.taskqueueQueueStats ["default"] 0]
  match env.taskqueueQueueStats ["default"] 0 with
  | .error _ => (.ret { info := none, err := some (fmtErrorf "unable to gather taskqueue stats") }, qs2)
  | .ok [] => (.ret { info := none, err := some (fmtErrorf "unable to gather taskqueue stats") }, qs2)
  | .ok (taskstats0 :: _) =>
  let qs3 := qs2 ++ [Query.moduleList]
  match env.moduleList with
  | .error err => (.ret { info := none, err := some err }, qs3)
  | .ok mnames =>
  match gatherModules env mnames [] qs3 with
  | (.error err, qs4) => (.ret { info := none, err := some err }, qs4)
  | (.ok modules, qs4) =>
  let qs5 := qs4 ++ [Query.runtimeStats]
  match env.runtimeStats with
  | .error err => (.ret { info := none, err := some err }, qs5)
  | .ok aestats =>
  match env.userCurrent with
  | none => (.panic "runtime error: invalid memory address or nil pointer dereference", qs5)
  | some u =>
    let i : Info :=
      { AppID := env.AppID
        Datacenter := env.Datacenter
        DefaultVersionHostname := env.DefaultVersionHostname
        InstanceID := env.InstanceID
        IsDevAppServer := env.IsDevAppServer
        ModuleName := env.ModuleName
        ServerSoftware := env.ServerSoftware
        VersionID := env.VersionID
        ServerTime := env.timeNow
        GoVersion := env.runtimeVersion
        CPU :=
          { Total := aestats.CPU.Total
            Rate1M := aestats.CPU.Rate1M
            Rate10M := aestats.CPU.Rate10M }
        RAM :=
          { Current := aestats.RAM.Current
            Average1M := aestats.RAM.Average1M
            Average10M := aestats.RAM.Average10M }
        Modules := modules
        Memcache := ms
        Taskqueue :=
          { Name := "default"
            Tasks := taskstats0.Tasks
            OldestETA := taskstats0.OldestETA
            InFlight := taskstats0.InFlight
            Executed1Minute := taskstats0.Executed1Minute
            EnforcedRate := taskstats0.EnforcedRate }
        Caller :=
          { RemoteAddr := r.RemoteAddr
            UserAgent := r.UserAgent
            City := r.HeaderGet "X-AppEngine-City"
            CityLatLong := r.HeaderGet "X-AppEngine-CityLatLong"
            Country := r.HeaderGet "X-AppEngine-Country"
            Region := r.HeaderGet "X-AppEngine-Region"
            Email := u.Email } }
    (.ret { info := some i, err := none }, qs5)

/-! ## The handler -/

/-- A call made on the `http.ResponseWriter`. -/
inductive WriterCall where
  /-- Call `http.Redirect(w, r, url, code)`. -/
  | Redirect (url : String) (code : Nat)
  /-- Call `http.Error(w, msg, code)`. -/
  | Error (msg : String) (code : Nat)
  /-- Call `w.Write(bytes)`, made by the JSON encoder when marshalling succeeded. -/
  | Write (bytes : String)
  deriving DecidableEq, Repr

def StatusTemporaryRedirect : Nat := 307
def StatusForbidden : Nat := 403
def StatusInternalServerError : Nat := 500
def StatusOK : Nat := 200

/-- The function `serveError(w, err)`; `w` is the list of calls made on the writer so far. -/
def serveError (w : List WriterCall) (err : GoError) : List WriterCall :=
  w ++ [WriterCall.Error err.Error StatusInternalServerError]

/-- The call `json.NewEncoder(w).Encode(i)`: a nil pointer marshals to `null`; the
encoder appends a newline and writes, or returns the marshalling error and writes
nothing. -/
def jsonEncode (env : Env) (w : List WriterCall) (i : Option Info) :
    List WriterCall × Option GoError :=
  match (match i with
         | none => Except.ok "null"
         | some v => env.jsonMarshal v) with
  | .ok s => (w ++ [WriterCall.Write (s ++ "\n")], none)
  | .error err => (w, some err)

/-- What a run of the handler did. -/
structure HandlerRun where
  /-- The calls made on the response writer, or the panic that ended the run. -/
  writes : Outcome (List WriterCall)
  /-- The statistics queries issued (empty when `Gather` was not called: its first
  statement is a query). -/
  queries : List Query
  deriving DecidableEq, Repr

/-- Lines 41-48 of `aeinfoHandler`: call `Gather`, report its error, encode. -/
def gatherAndEncode (env : Env) (r : Request) : HandlerRun :=
  match Gather env r with
  | (.panic msg, qs) => { writes := .panic msg, queries := qs }
  | (.ret res, qs) =>
    let w1 : List WriterCall :=
      match res.err with
      | some err => serveError [] err
      | none => []
    match jsonEncode env w1 res.info with
    | (w2, some err) => { writes := .ret (serveError w2 err), queries := qs }
    | (w2, none) => { writes := .ret w2, queries := qs }

/-- The function `aeinfoHandler(w, r)`. -/
def aeinfoHandler (env : Env) (r : Request) : HandlerRun :=
  if env.IsDevAppServer then
    gatherAndEncode env r
  else
    match env.userCurrent with
    | none =>
      match env.userLoginURL r.URLString with
      | .ok loginURL =>
        { writes := .ret [WriterCall.Redirect loginURL StatusTemporaryRedirect], queries := [] }
      | .error err => { writes := .ret (serveError [] err), queries := [] }
    | some u =>
      if !u.Admin then
        { writes := .ret [WriterCall.Error "Forbidden" StatusForbidden], queries := [] }
      else
        gatherAndEncode env r

/-! ## What `net/http` makes of the writer calls -/

/-- The status code of the response: the first call on the writer sends the header
(`http.Error` and `http.Redirect` with their code, a plain `Write` with 200); later
`WriteHeader` calls are ignored. A handler that writes nothing answers 200. -/
def responseStatus : List WriterCall → Nat
  | [] => StatusOK
  | .Redirect _ code :: _ => code
  | .Error _ code :: _ => code
  | .Write _ :: _ => StatusOK

/-- The bytes `http.Error` and `Write` calls put in the response body, in order:
`http.Error` prints its message and a newline. (The short HTML note `http.Redirect`
writes for GET requests is left out.) -/
def responseBody : List WriterCall → String
  | [] => ""
  | .Redirect _ _ :: rest => responseBody rest
  | .Error msg _ :: rest => msg ++ "\n" ++ responseBody rest
  | .Write bytes :: rest => bytes ++ responseBody rest

/-! ## Notions used in the statements -/

/-- The cache step of `Gather` does not abort: `memcache.Stats` succeeded or reported
the `ErrNoStats` sentinel. -/
def cacheStepPasses (env : Env) : Prop :=
  ∀ e, env.memcacheStats = .error e → e = GoError.ErrNoStats

/-- Entry `m` is the record the loop builds for the name `n`. -/
def moduleFor (env : Env) (n : String) (m : Module) : Prop :=
  m.Name = n ∧ env.moduleVersions n = .ok m.Versions

/-- The queries issued before the module loop starts. -/
def queriesUpToList : List Query :=
  [Query.memcacheStats, Query.taskqueueQueueStats ["default"] 0, Query.moduleList]

/-- The cache record `ms` of `Gather` once the cache step has passed. -/
def cacheRecord (env : Env) : Memcache :=
  match env.memcacheStats with
  | .ok memstats =>
    { Hits := memstats.Hits, Misses := memstats.Misses, ByteHits := memstats.ByteHits,
      Items := memstats.Items, Bytes := memstats.Bytes, Oldest := memstats.Oldest }
  | .error _ => Memcache.zero

/-- The record `Gather` assembles from the query results. -/
def snapshotOf (env : Env) (r : Request) (q : QueueStatistics) (modules : List Module)
    (a : RuntimeStatistics) (u : User) : Info :=
  { AppID := env.AppID
    Datacenter := env.Datacenter
    DefaultVersionHostname := env.DefaultVersionHostname
    InstanceID := env.InstanceID
    IsDevAppServer := env.IsDevAppServer
    ModuleName := env.ModuleName
    ServerSoftware := env.ServerSoftware
    VersionID := env.VersionID
    ServerTime := env.timeNow
    GoVersion := env.runtimeVersion
    CPU := { Total := a.CPU.Total, Rate1M := a.CPU.Rate1M, Rate10M := a.CPU.Rate10M }
    RAM := { Current := a.RAM.Current, Average1M := a.RAM.Average1M, Average10M := a.RAM.Average10M }
    Modules := modules
    Memcache := cacheRecord env
    Taskqueue :=
      { Name := "default", Tasks := q.Tasks, OldestETA := q.OldestETA, InFlight := q.InFlight,
        Executed1Minute := q.Executed1Minute, EnforcedRate := q.EnforcedRate }
    Caller :=
      { RemoteAddr := r.RemoteAddr
        UserAgent := r.UserAgent
        City := r.HeaderGet "X-AppEngine-City"
        CityLatLong := r.HeaderGet "X-AppEngine-CityLatLong"
        Country := r.HeaderGet "X-AppEngine-Country"
        Region := r.HeaderGet "X-AppEngine-Region"
        Email := u.Email } }

/-- All the queries of a run of `Gather` that reaches the resource statistics. -/
def queriesAll (names : List String) : List Query :=
  queriesUpToList ++ names.map Query.moduleVersions ++ [Query.runtimeStats]

/-! ## Concrete platforms used as test inputs -/

/-- A request for the handler's own URL. -/
def sampleRequest : Request :=
  { RemoteAddr := "10.0.0.1:4711"
    HeaderGet := fun key => if key = "User-Agent" then "curl" else ""
    URLString := "/_ah/aeinfo/" }

/-- A production platform on which every query succeeds and the caller is an
administrator: two modules, one queue entry. -/
def sampleEnv : Env :=
  { IsDevAppServer := false
    userCurrent := some { Email := "admin@example.com", Admin := true }
    userLoginURL := fun dest => .ok ("https://login.example.com/?continue=" ++ dest)
    memcacheStats := .ok { Hits := 10, Misses := 2, ByteHits := 300, Items := 4, Bytes := 500, Oldest := 60 }
    taskqueueQueueStats := fun _ _ =>
      .ok [{ Tasks := 3, OldestETA := ⟨100, 0⟩, Executed1Minute := 7, InFlight := 1, EnforcedRate := ⟨5⟩ }]
    moduleList := .ok ["default", "worker"]
    moduleVersions := fun n => if n = "default" then .ok ["v1", "v2"] else .ok ["w1"]
    runtimeStats := .ok { CPU := ⟨⟨1⟩, ⟨2⟩, ⟨3⟩⟩, RAM := ⟨⟨4⟩, ⟨5⟩, ⟨6⟩⟩ }
    AppID := "app"
    Datacenter := "dc"
    DefaultVersionHostname := "app.example.com"
    InstanceID := "inst"
    ModuleName := "default"
    ServerSoftware := "Google App Engine/1.9"
    VersionID := "v1.1"
    timeNow := ⟨1000, 0⟩
    runtimeVersion := "go1.4"
    jsonMarshal := fun _ => .ok "JSON" }

/-- The platform of `sampleEnv` with a failing `memcache.Stats` (not the sentinel). -/
def envCacheFails : Env := { sampleEnv with memcacheStats := .error (.mk "boom") }

/-- The platform of `sampleEnv` with `memcache.Stats` reporting `ErrNoStats`. -/
def envNoStats : Env := { sampleEnv with memcacheStats := .error .ErrNoStats }

/-- The platform of `sampleEnv` with `taskqueue.QueueStats` returning no queue. -/
def envQueueEmpty : Env := { sampleEnv with taskqueueQueueStats := fun _ _ => .ok [] }

/-- The platform of `sampleEnv` with a failing `aeruntime.Stats`. -/
def envRuntimeFails : Env := { sampleEnv with runtimeStats := .error (.mk "runtime down") }

/-- The platform of `sampleEnv` with no module registered. -/
def envNoModules : Env := { sampleEnv with moduleList := .ok [] }

/-- A platform on which every query fails, each with an error of its own; the module
list is never obtained. -/
def envAllFail : Env :=
  { sampleEnv with
    memcacheStats := .error (.mk "cache down")
    taskqueueQueueStats := fun _ _ => .error (.mk "queue down")
    moduleList := .error (.mk "list down")
    moduleVersions := fun _ => .error (.mk "versions down")
    runtimeStats := .error (.mk "runtime down") }

/-- The platform of `sampleEnv` where the versions of the second module cannot be
fetched and the resource statistics fail too. -/
def envWorkerFails : Env :=
  { sampleEnv with
    moduleVersions := fun n => if n = "default" then .ok ["v1", "v2"] else .error (.mk "versions down")
    runtimeStats := .error (.mk "runtime down") }

/-- The platform of `sampleEnv` with a signed-in caller who is not an administrator. -/
def envNonAdmin : Env :=
  { sampleEnv with userCurrent := some { Email := "guest@example.com", Admin := false } }

/-- The development server with a signed-in caller who is not an administrator. -/
def envDevNonAdmin : Env :=
  { sampleEnv with
    IsDevAppServer := true
    userCurrent := some { Email := "guest@example.com", Admin := false } }

/-- The development server with nobody signed in; every query succeeds. -/
def envDevNoUser : Env := { sampleEnv with IsDevAppServer := true, userCurrent := none }

/-- The platform of `sampleEnv` with nobody signed in. -/
def envAnonymous : Env := { sampleEnv with userCurrent := none }

/-- The platform of `sampleEnv` with nobody signed in and a failing `user.LoginURL`. -/
def envAnonymousNoLogin : Env :=
  { sampleEnv with userCurrent := none, userLoginURL := fun _ => .error (.mk "no login") }

/-! ## Auxiliary facts about the module loop and the steps of `Gather` -/

lemma gatherModules_ok_inv (env : Env) (names : List String) :
    ∀ (acc : List Module) (qs : List Query) (modules : List Module) (qs2 : List Query),
      gatherModules env names acc qs = (.ok modules, qs2) →
      ∃ ms, modules = acc ++ ms ∧ List.Forall₂ (moduleFor env) names ms ∧
        qs2 = qs ++ names.map Query.moduleVersions := by
  induction names with
  | nil =>
    intro acc qs modules qs2 h
    simp only [gatherModules, Prod.mk.injEq, Except.ok.injEq] at h
    exact ⟨[], by simp [h.1], List.Forall₂.nil, by simp [h.2]⟩
  | cons n rest ih =>
    intro acc qs modules qs2 h
    unfold gatherModules at h
    cases hv : env.moduleVersions n with
    | error e => simp [hv] at h
    | ok vs =>
      simp only [hv] at h
      obtain ⟨ms, h1, h2, h3⟩ := ih _ _ _ _ h
      refine ⟨{ Name := n, Versions := vs } :: ms, by simp [h1], ?_, by simp [h3]⟩
      exact List.Forall₂.cons ⟨rfl, hv⟩ h2

lemma gatherModules_all_ok (env : Env) (names : List String) :
    ∀ (acc : List Module) (qs : List Query),
      (∀ n ∈ names, ∃ vs, env.moduleVersions n = .ok vs) →
      ∃ ms, gatherModules env names acc qs
          = (.ok (acc ++ ms), qs ++ names.map Query.moduleVersions) ∧
        List.Forall₂ (moduleFor env) names ms := by
  induction names with
  | nil =>
    intro acc qs _
    exact ⟨[], by simp [gatherModules], List.Forall₂.nil⟩
  | cons n rest ih =>
    intro acc qs h
    obtain ⟨vs, hv⟩ := h n (List.mem_cons_self _ _)
    obtain ⟨ms, h1, h2⟩ := ih (acc ++ [{ Name := n, Versions := vs }])
      (qs ++ [Query.moduleVersions n]) (fun m hm => h m (List.mem_cons_of_mem _ hm))
    refine ⟨{ Name := n, Versions := vs } :: ms, ?_, List.Forall₂.cons ⟨rfl, hv⟩ h2⟩
    unfold gatherModules
    simp only [hv, h1]
    simp

lemma gatherModules_first_error (env : Env) (pre : List String) :
    ∀ (n : String) (post : List String) (e : GoError) (acc : List Module) (qs : List Query),
      (∀ m ∈ pre, ∃ vs, env.moduleVersions m = .ok vs) →
      env.moduleVersions n = .error e →
      gatherModules env (pre ++ n :: post) acc qs
        = (.error e, qs ++ (pre ++ [n]).map Query.moduleVersions) := by
  induction pre with
  | nil =>
    intro n post e acc qs _ hn
    simp [gatherModules, hn]
  | cons p rest ih =>
    intro n post e acc qs h hn
    obtain ⟨vs, hv⟩ := h p (List.mem_cons_self _ _)
    have := ih n post e (acc ++ [{ Name := p, Versions := vs }])
      (qs ++ [Query.moduleVersions p]) (fun m hm => h m (List.mem_cons_of_mem _ hm)) hn
    show gatherModules env (p :: (rest ++ n :: post)) acc qs = _
    unfold gatherModules
    simp only [hv]
    rw [this]
    simp

lemma gatherModules_some_error (env : Env) (names : List String) :
    ∀ (acc : List Module) (qs : List Query) (n : String) (e : GoError),
      n ∈ names → env.moduleVersions n = .error e →
      ∃ e2 qs2, gatherModules env names acc qs = (.error e2, qs2) := by
  induction names with
  | nil => intro _ _ n e hn; simp at hn
  | cons p rest ih =>
    intro acc qs n e hn he
    unfold gatherModules
    cases hv : env.moduleVersions p with
    | error e2 => exact ⟨e2, _, rfl⟩
    | ok vs =>
      simp only
      rcases List.mem_cons.mp hn with h | h
      · subst h; rw [hv] at he; cases he
      · exact ih _ _ n e h he

lemma Gather_cache_abort (env : Env) (r : Request) (e : GoError)
    (hm : env.memcacheStats = .error e) (hne : e ≠ GoError.ErrNoStats) :
    Gather env r = (.ret { info := none, err := some e }, [Query.memcacheStats]) := by
  unfold Gather
  simp [hm, hne]

lemma Gather_queue_abort (env : Env) (r : Request) (hc : cacheStepPasses env)
    (hq : (∃ e, env.taskqueueQueueStats ["default"] 0 = .error e)
      ∨ env.taskqueueQueueStats ["default"] 0 = .ok []) :
    Gather env r
      = (.ret { info := none, err := some (fmtErrorf "unable to gather taskqueue stats") },
         [Query.memcacheStats, Query.taskqueueQueueStats ["default"] 0]) := by
  unfold Gather
  cases hm : env.memcacheStats with
  | error e =>
    have := hc e hm
    subst this
    rcases hq with ⟨e2, hq⟩ | hq <;> simp [hq]
  | ok s =>
    rcases hq with ⟨e2, hq⟩ | hq <;> simp [hq]

lemma Gather_list_abort (env : Env) (r : Request) (q : QueueStatistics)
    (qrest : List QueueStatistics) (e : GoError) (hc : cacheStepPasses env)
    (hq : env.taskqueueQueueStats ["default"] 0 = .ok (q :: qrest))
    (hl : env.moduleList = .error e) :
    Gather env r = (.ret { info := none, err := some e }, queriesUpToList) := by
  unfold Gather
  cases hm : env.memcacheStats with
  | error e =>
    have := hc e hm
    subst this
    simp [hq, hl, queriesUpToList]
  | ok s => simp [hq, hl, queriesUpToList]

lemma Gather_versions_abort (env : Env) (r : Request) (q : QueueStatistics)
    (qrest : List QueueStatistics) (pre : List String) (n : String) (post : List String)
    (e : GoError) (hc : cacheStepPasses env)
    (hq : env.taskqueueQueueStats ["default"] 0 = .ok (q :: qrest))
    (hl : env.moduleList = .ok (pre ++ n :: post))
    (hpre : ∀ m ∈ pre, ∃ vs, env.moduleVersions m = .ok vs)
    (hn : env.moduleVersions n = .error e) :
    Gather env r = (.ret { info := none, err := some e },
      queriesUpToList ++ (pre ++ [n]).map Query.moduleVersions) := by
  have hg := gatherModules_first_error env pre n post e [] queriesUpToList hpre hn
  unfold queriesUpToList at hg
  unfold Gather
  cases hm : env.memcacheStats with
  | error e =>
    have := hc e hm
    subst this
    simp [hq, hl, hg, queriesUpToList]
  | ok s => simp [hq, hl, hg, queriesUpToList]

lemma Gather_runtime_abort (env : Env) (r : Request) (q : QueueStatistics)
    (qrest : List QueueStatistics) (names : List String) (e : GoError)
    (hc : cacheStepPasses env)
    (hq : env.taskqueueQueueStats ["default"] 0 = .ok (q :: qrest))
    (hl : env.moduleList = .ok names)
    (hv : ∀ n ∈ names, ∃ vs, env.moduleVersions n = .ok vs)
    (hr : env.runtimeStats = .error e) :
    Gather env r = (.ret { info := none, err := some e }, queriesAll names) := by
  obtain ⟨ms, hg, _⟩ := gatherModules_all_ok env names [] queriesUpToList hv
  unfold queriesUpToList at hg
  unfold Gather
  cases hm : env.memcacheStats with
  | error e =>
    have := hc e hm
    subst this
    simp [hq, hl, hg, hr, queriesAll, queriesUpToList]
  | ok s => simp [hq, hl, hg, hr, queriesAll, queriesUpToList]

lemma Gather_nil_user (env : Env) (r : Request) (q : QueueStatistics)
    (qrest : List QueueStatistics) (names : List String) (a : RuntimeStatistics)
    (hc : cacheStepPasses env)
    (hq : env.taskqueueQueueStats ["default"] 0 = .ok (q :: qrest))
    (hl : env.moduleList = .ok names)
    (hv : ∀ n ∈ names, ∃ vs, env.moduleVersions n = .ok vs)
    (hr : env.runtimeStats = .ok a)
    (hu : env.userCurrent = none) :
    Gather env r
      = (.panic "runtime error: invalid memory address or nil pointer dereference",
         queriesAll names) := by
  obtain ⟨ms, hg, _⟩ := gatherModules_all_ok env names [] queriesUpToList hv
  unfold queriesUpToList at hg
  unfold Gather
  cases hm : env.memcacheStats with
  | error e =>
    have := hc e hm
    subst this
    simp [hq, hl, hg, hr, hu, queriesAll, queriesUpToList]
  | ok s => simp [hq, hl, hg, hr, hu, queriesAll, queriesUpToList]

lemma Gather_success (env : Env) (r : Request) (q : QueueStatistics)
    (qrest : List QueueStatistics) (names : List String) (a : RuntimeStatistics) (u : User)
    (hc : cacheStepPasses env)
    (hq : env.taskqueueQueueStats ["default"] 0 = .ok (q :: qrest))
    (hl : env.moduleList = .ok names)
    (hv : ∀ n ∈ names, ∃ vs, env.moduleVersions n = .ok vs)
    (hr : env.runtimeStats = .ok a)
    (hu : env.userCurrent = some u) :
    ∃ modules, List.Forall₂ (moduleFor env) names modules ∧
      Gather env r = (.ret { info := some (snapshotOf env r q modules a u), err := none },
        queriesAll names) := by
  obtain ⟨ms, hg, hms⟩ := gatherModules_all_ok env names [] queriesUpToList hv
  unfold queriesUpToList at hg
  refine ⟨ms, hms, ?_⟩
  unfold Gather
  cases hm : env.memcacheStats with
  | error e =>
    have := hc e hm
    subst this
    simp [hq, hl, hg, hr, hu, queriesAll, queriesUpToList, snapshotOf, cacheRecord, hm]
  | ok s => simp [hq, hl, hg, hr, hu, queriesAll, queriesUpToList, snapshotOf, cacheRecord, hm]

lemma Gather_success_inv (env : Env) (r : Request) (i : Info) (oe : Option GoError)
    (h : (Gather env r).1 = .ret { info := some i, err := oe }) :
    ∃ q qrest names modules a u,
      cacheStepPasses env ∧
      env.taskqueueQueueStats ["default"] 0 = .ok (q :: qrest) ∧
      env.moduleList = .ok names ∧
      List.Forall₂ (moduleFor env) names modules ∧
      env.runtimeStats = .ok a ∧
      env.userCurrent = some u ∧
      i = snapshotOf env r q modules a u ∧ oe = none := by
  have hcache : cacheStepPasses env := by
    intro e he
    by_contra hne
    rw [Gather_cache_abort env r e he hne] at h
    simp at h
  cases hq : env.taskqueueQueueStats ["default"] 0 with
  | error e =>
    rw [Gather_queue_abort env r hcache (Or.inl ⟨e, hq⟩)] at h
    simp at h
  | ok qlist =>
    cases qlist with
    | nil =>
      rw [Gather_queue_abort env r hcache (Or.inr hq)] at h
      simp at h
    | cons q qrest =>
      cases hl : env.moduleList with
      | error e =>
        rw [Gather_list_abort env r q qrest e hcache hq hl] at h
        simp at h
      | ok names =>
        by_cases hv : ∀ n ∈ names, ∃ vs, env.moduleVersions n = .ok vs
        · cases hr : env.runtimeStats with
          | error e =>
            rw [Gather_runtime_abort env r q qrest names e hcache hq hl hv hr] at h
            simp at h
          | ok a =>
            cases hu : env.userCurrent with
            | none =>
              rw [Gather_nil_user env r q qrest names a hcache hq hl hv hr hu] at h
              simp at h
            | some u =>
              obtain ⟨modules, hms, hg⟩ := Gather_success env r q qrest names a u hcache hq hl hv hr hu
              rw [hg] at h
              simp only [Outcome.ret.injEq, GatherReturn.mk.injEq, Option.some.injEq] at h
              exact ⟨q, qrest, names, modules, a, u, hcache, rfl, rfl, hms, rfl, rfl,
                h.1.symm, h.2.symm⟩
        · exfalso
          push_neg at hv
          obtain ⟨n, hn, hne⟩ := hv
          cases hvn : env.moduleVersions n with
          | ok vs => exact hne vs hvn
          | error e =>
            obtain ⟨e2, qs2, hg⟩ := gatherModules_some_error env names []
              [Query.memcacheStats, Query.taskqueueQueueStats ["default"] 0, Query.moduleList]
              n e hn hvn
            unfold Gather at h
            cases hm : env.memcacheStats with
            | error e3 =>
              have := hcache e3 hm
              subst this
              simp [hm, hq, hl, hg] at h
            | ok s => simp [hm, hq, hl, hg] at h

lemma Gather_versions_some_abort (env : Env) (r : Request) (names : List String)
    (n : String) (e : GoError) (hc : cacheStepPasses env)
    (q : QueueStatistics) (qrest : List QueueStatistics)
    (hq : env.taskqueueQueueStats ["default"] 0 = .ok (q :: qrest))
    (hl : env.moduleList = .ok names) (hn : n ∈ names)
    (hvn : env.moduleVersions n = .error e) :
    ∃ e2, (Gather env r).1 = .ret { info := none, err := some e2 } := by
  obtain ⟨e2, qs2, hg⟩ := gatherModules_some_error env names []
    [Query.memcacheStats, Query.taskqueueQueueStats ["default"] 0, Query.moduleList]
    n e hn hvn
  refine ⟨e2, ?_⟩
  unfold Gather
  cases hm : env.memcacheStats with
  | error e3 =>
    have := hc e3 hm
    subst this
    simp [hq, hl, hg]
  | ok s => simp [hq, hl, hg]

lemma Gather_error_or_all_ok (env : Env) (r : Request) :
    (∃ e, (Gather env r).1 = .ret { info := none, err := some e }) ∨
    (cacheStepPasses env ∧ ∃ q qrest names a,
      env.taskqueueQueueStats ["default"] 0 = .ok (q :: qrest) ∧
      env.moduleList = .ok names ∧
      (∀ n ∈ names, ∃ vs, env.moduleVersions n = .ok vs) ∧
      env.runtimeStats = .ok a) := by
  by_cases hc : cacheStepPasses env
  swap
  · left
    unfold cacheStepPasses at hc
    push_neg at hc
    obtain ⟨e, he, hne⟩ := hc
    exact ⟨e, by rw [Gather_cache_abort env r e he hne]⟩
  cases hq : env.taskqueueQueueStats ["default"] 0 with
  | error e => exact Or.inl ⟨_, by rw [Gather_queue_abort env r hc (Or.inl ⟨e, hq⟩)]⟩
  | ok qlist =>
    cases qlist with
    | nil => exact Or.inl ⟨_, by rw [Gather_queue_abort env r hc (Or.inr hq)]⟩
    | cons q qrest =>
      cases hl : env.moduleList with
      | error e => exact Or.inl ⟨e, by rw [Gather_list_abort env r q qrest e hc hq hl]⟩
      | ok names =>
        by_cases hv : ∀ n ∈ names, ∃ vs, env.moduleVersions n = .ok vs
        · cases hr : env.runtimeStats with
          | error e =>
            exact Or.inl ⟨e, by rw [Gather_runtime_abort env r q qrest names e hc hq hl hv hr]⟩
          | ok a => exact Or.inr ⟨hc, q, qrest, names, a, rfl, rfl, hv, rfl⟩
        · left
          push_neg at hv
          obtain ⟨n, hn, hne⟩ := hv
          cases hvn : env.moduleVersions n with
          | ok vs => exact absurd hvn (hne vs)
          | error e => exact Gather_versions_some_abort env r names n e hc q qrest hq hl hn hvn

lemma forall₂_moduleFor_index (env : Env) (names : List String) (modules : List Module)
    (h : List.Forall₂ (moduleFor env) names modules) :
    modules.length = names.length ∧
    ∀ (k : Nat) (n : String), names[k]? = some n →
      ∃ m : Module, modules[k]? = some m ∧ m.Name = n ∧
        env.moduleVersions n = .ok m.Versions := by
  induction h with
  | nil => exact ⟨rfl, by intro k n hk; simp at hk⟩
  | cons hab _ ih =>
    refine ⟨by simp [ih.1], ?_⟩
    intro k n hk
    cases k with
    | zero =>
      simp only [List.getElem?_cons_zero, Option.some.injEq] at hk
      subst hk
      exact ⟨_, by simp, hab.1, hab.2⟩
    | succ k =>
      simp only [List.getElem?_cons_succ] at hk
      obtain ⟨m, hm, h1, h2⟩ := ih.2 k n hk
      exact ⟨m, by simpa using hm, h1, h2⟩

/-! ## The claims -/

/-- C1: whenever the queue-stats query, the module-list query, a module-versions query
for a listed module, or the resource-stats query fails, or the cache query fails with an
error other than the `ErrNoStats` sentinel, `Gather` returns (it does not panic) a non-nil
error together with a nil `*Info`. -/
theorem Gather_failure_returns_error_and_nil_info (env : Env) (r : Request)
    (h : (∃ e, env.memcacheStats = .error e ∧ e ≠ GoError.ErrNoStats)
      ∨ (∃ e, env.taskqueueQueueStats ["default"] 0 = .error e)
      ∨ (∃ e, env.moduleList = .error e)
      ∨ (∃ names n e, env.moduleList = .ok names ∧ n ∈ names ∧
          env.moduleVersions n = .error e)
      ∨ (∃ e, env.runtimeStats = .error e)) :
    ∃ e, (Gather env r).1 = .ret { info := none, err := some e } := by
  rcases Gather_error_or_all_ok env r with hres | ⟨hc, q, qrest, names, a, hq, hl, hv, hr⟩
  · exact hres
  · exfalso
    rcases h with ⟨e, he, hne⟩ | ⟨e, he⟩ | ⟨e, he⟩ | ⟨names2, n, e, hl2, hn, he⟩ | ⟨e, he⟩
    · exact hne (hc e he)
    · rw [hq] at he; cases he
    · rw [hl] at he; cases he
    · rw [hl] at hl2
      cases hl2
      obtain ⟨vs, hvs⟩ := hv n hn
      rw [hvs] at he; cases he
    · rw [hr] at he; cases he

/-- C1, on a platform whose resource statistics fail. -/
theorem Gather_failure_returns_error_and_nil_info_witness :
    ∃ e, (Gather envRuntimeFails sampleRequest).1 = .ret { info := none, err := some e } :=
  Gather_failure_returns_error_and_nil_info envRuntimeFails sampleRequest
    (Or.inr (Or.inr (Or.inr (Or.inr ⟨GoError.mk "runtime down", rfl⟩))))

/-- C2: when `memcache.Stats` reports `ErrNoStats` and the queue query (with at least one
queue entry), the module-list query, every module-versions query and the resource query
succeed, with a signed-in caller, `Gather` returns a non-nil `*Info` and a nil error, and
the six fields of its `Memcache` record are zero. -/
theorem Gather_no_stats_gives_zero_cache (env : Env) (r : Request) (q : QueueStatistics)
    (qrest : List QueueStatistics) (names : List String) (a : RuntimeStatistics) (u : User)
    (hm : env.memcacheStats = .error GoError.ErrNoStats)
    (hq : env.taskqueueQueueStats ["default"] 0 = .ok (q :: qrest))
    (hl : env.moduleList = .ok names)
    (hv : ∀ n ∈ names, ∃ vs, env.moduleVersions n = .ok vs)
    (hr : env.runtimeStats = .ok a)
    (hu : env.userCurrent = some u) :
    ∃ i, (Gather env r).1 = .ret { info := some i, err := none } ∧
      i.Memcache.Hits = 0 ∧ i.Memcache.Misses = 0 ∧ i.Memcache.ByteHits = 0 ∧
      i.Memcache.Items = 0 ∧ i.Memcache.Bytes = 0 ∧ i.Memcache.Oldest = 0 := by
  have hc : cacheStepPasses env := by
    intro e he
    rw [hm] at he
    cases he
    rfl
  obtain ⟨modules, _, hg⟩ := Gather_success env r q qrest names a u hc hq hl hv hr hu
  refine ⟨_, by rw [hg], ?_⟩
  simp [snapshotOf, cacheRecord, hm, Memcache.zero]

/-- C2, on the sample platform with a cache that has no statistics yet. -/
theorem Gather_no_stats_gives_zero_cache_witness :
    ∃ i, (Gather envNoStats sampleRequest).1 = .ret { info := some i, err := none } ∧
      i.Memcache.Hits = 0 ∧ i.Memcache.Misses = 0 ∧ i.Memcache.ByteHits = 0 ∧
      i.Memcache.Items = 0 ∧ i.Memcache.Bytes = 0 ∧ i.Memcache.Oldest = 0 :=
  Gather_no_stats_gives_zero_cache envNoStats sampleRequest
    { Tasks := 3, OldestETA := ⟨100, 0⟩, Executed1Minute := 7, InFlight := 1, EnforcedRate := ⟨5⟩ }
    [] ["default", "worker"] { CPU := ⟨⟨1⟩, ⟨2⟩, ⟨3⟩⟩, RAM := ⟨⟨4⟩, ⟨5⟩, ⟨6⟩⟩ }
    { Email := "admin@example.com", Admin := true } rfl rfl rfl
    (by
      intro n _
      by_cases hn : n = "default"
      · exact ⟨["v1", "v2"], by simp [envNoStats, sampleEnv, hn]⟩
      · exact ⟨["w1"], by simp [envNoStats, sampleEnv, hn]⟩)
    rfl rfl

/-- C3 as stated fails: with the cache step passed and an empty queue list, the error
`Gather` returns does not have the message "unable to gather queue stats". -/
theorem Gather_queue_message_counterexample :
    cacheStepPasses envQueueEmpty ∧
    envQueueEmpty.taskqueueQueueStats ["default"] 0 = .ok [] ∧
    ¬ ∃ e, (Gather envQueueEmpty sampleRequest).1 = .ret { info := none, err := some e } ∧
        e.Error = "unable to gather queue stats" := by
  have hc : cacheStepPasses envQueueEmpty := by
    intro e he
    simp [envQueueEmpty, sampleEnv] at he
  refine ⟨hc, rfl, ?_⟩
  rintro ⟨e, he, hmsg⟩
  rw [Gather_queue_abort envQueueEmpty sampleRequest hc (Or.inr rfl)] at he
  simp only [Outcome.ret.injEq, GatherReturn.mk.injEq, Option.some.injEq, true_and] at he
  subst he
  revert hmsg
  decide

/-- C3, amended: when the cache step does not abort and the queue-stats query for
"default" fails or returns an empty list, `Gather` returns (it does not panic) a nil
`*Info` and an error whose message is "unable to gather taskqueue stats". -/
theorem Gather_queue_failure_message (env : Env) (r : Request)
    (hc : cacheStepPasses env)
    (hq : (∃ e, env.taskqueueQueueStats ["default"] 0 = .error e)
      ∨ env.taskqueueQueueStats ["default"] 0 = .ok []) :
    ∃ e, (Gather env r).1 = .ret { info := none, err := some e } ∧
      e.Error = "unable to gather taskqueue stats" := by
  refine ⟨fmtErrorf "unable to gather taskqueue stats", ?_, rfl⟩
  rw [Gather_queue_abort env r hc hq]

/-- C3 amended, on the sample platform with an empty queue list. -/
theorem Gather_queue_failure_message_witness :
    ∃ e, (Gather envQueueEmpty sampleRequest).1 = .ret { info := none, err := some e } ∧
      e.Error = "unable to gather taskqueue stats" :=
  Gather_queue_failure_message envQueueEmpty sampleRequest
    (by intro e he; simp [envQueueEmpty, sampleEnv] at he) (Or.inr rfl)

/-- C4 on the code: for an administrator whose request reaches `Gather`, and a failing
`memcache.Stats` ("boom"), the handler reports the error and then still encodes the nil
`*Info`: the response has status 500 and the body is the message followed by `null`. -/
theorem aeinfoHandler_writes_null_after_error :
    envCacheFails.IsDevAppServer = false ∧
    envCacheFails.userCurrent = some { Email := "admin@example.com", Admin := true } ∧
    (Gather envCacheFails sampleRequest).1
      = .ret { info := none, err := some (GoError.mk "boom") } ∧
    (aeinfoHandler envCacheFails sampleRequest).writes
      = .ret [WriterCall.Error "boom" 500, WriterCall.Write "null\n"] ∧
    responseStatus [WriterCall.Error "boom" 500, WriterCall.Write "null\n"] = 500 ∧
    responseBody [WriterCall.Error "boom" 500, WriterCall.Write "null\n"] = "boom\nnull\n" := by
  refine ⟨rfl, rfl, ?_, ?_, rfl, by decide⟩
  · rw [Gather_cache_abort envCacheFails sampleRequest (GoError.mk "boom") rfl (by decide)]
  · decide

/-- C5 as stated fails: on the development server a signed-in caller without
administrator privilege is not rejected; `Gather` runs and the snapshot is written with
status 200. -/
theorem aeinfoHandler_dev_non_admin_counterexample :
    envDevNonAdmin.userCurrent = some { Email := "guest@example.com", Admin := false } ∧
    (aeinfoHandler envDevNonAdmin sampleRequest).writes = .ret [WriterCall.Write "JSON\n"] ∧
    responseStatus [WriterCall.Write "JSON\n"] = 200 ∧
    Query.memcacheStats ∈ (aeinfoHandler envDevNonAdmin sampleRequest).queries := by
  refine ⟨rfl, by decide, rfl, by decide⟩

/-- C5, amended: outside the development server, for every request whose current caller is
signed in but lacks administrator privilege, the handler makes exactly one call on the
writer, `http.Error(w, "Forbidden", 403)`, so the status is 403, and it issues no
statistics query (`Gather` is not run), whatever the statistics providers would return. -/
theorem aeinfoHandler_non_admin_forbidden (env : Env) (r : Request) (u : User)
    (hdev : env.IsDevAppServer = false)
    (hu : env.userCurrent = some u)
    (hadmin : u.Admin = false) :
    aeinfoHandler env r
        = { writes := .ret [WriterCall.Error "Forbidden" 403], queries := [] } ∧
      responseStatus [WriterCall.Error "Forbidden" 403] = 403 := by
  refine ⟨?_, rfl⟩
  unfold aeinfoHandler
  simp [hdev, hu, hadmin, StatusForbidden]

/-- C5 amended, on the sample platform with a caller who is not an administrator. -/
theorem aeinfoHandler_non_admin_forbidden_witness :
    aeinfoHandler envNonAdmin sampleRequest
        = { writes := .ret [WriterCall.Error "Forbidden" 403], queries := [] } ∧
      responseStatus [WriterCall.Error "Forbidden" 403] = 403 :=
  aeinfoHandler_non_admin_forbidden envNonAdmin sampleRequest
    { Email := "guest@example.com", Admin := false } rfl rfl rfl

/-- C6: outside the development server, for every request with no signed-in caller: if
`user.LoginURL` for the request URL succeeds, the handler makes exactly one call on the
writer, `http.Redirect` to that login URL with status 307; if it fails, exactly one call,
`http.Error` with the error's message and status 500. In both cases no statistics query is
issued (`Gather` is not run) and no snapshot is written. -/
theorem aeinfoHandler_anonymous_redirects (env : Env) (r : Request)
    (hdev : env.IsDevAppServer = false)
    (hu : env.userCurrent = none) :
    (∀ loginURL, env.userLoginURL r.URLString = .ok loginURL →
      aeinfoHandler env r
        = { writes := .ret [WriterCall.Redirect loginURL 307], queries := [] } ∧
      responseStatus [WriterCall.Redirect loginURL 307] = 307) ∧
    (∀ err, env.userLoginURL r.URLString = .error err →
      aeinfoHandler env r
        = { writes := .ret [WriterCall.Error err.Error 500], queries := [] } ∧
      responseStatus [WriterCall.Error err.Error 500] = 500 ∧
      responseBody [WriterCall.Error err.Error 500] = err.Error ++ "\n") := by
  constructor
  · intro loginURL hl
    refine ⟨?_, rfl⟩
    unfold aeinfoHandler
    simp [hdev, hu, hl, StatusTemporaryRedirect]
  · intro err hl
    refine ⟨?_, rfl, by simp [responseBody]⟩
    unfold aeinfoHandler
    simp [hdev, hu, hl, serveError, StatusInternalServerError]

/-- C6, on the sample platform with nobody signed in: once with a login URL, once with a
failing `user.LoginURL`. -/
theorem aeinfoHandler_anonymous_redirects_witness :
    (aeinfoHandler envAnonymous sampleRequest
      = { writes := .ret [WriterCall.Redirect
            "https://login.example.com/?continue=/_ah/aeinfo/" 307],
          queries := [] }) ∧
    (aeinfoHandler envAnonymousNoLogin sampleRequest
      = { writes := .ret [WriterCall.Error "no login" 500], queries := [] }) :=
  ⟨((aeinfoHandler_anonymous_redirects envAnonymous sampleRequest rfl rfl).1
      "https://login.example.com/?continue=/_ah/aeinfo/" rfl).1,
   ((aeinfoHandler_anonymous_redirects envAnonymousNoLogin sampleRequest rfl rfl).2
      (GoError.mk "no login") rfl).1⟩

/-- C7: when the cache, queue (with at least one entry), module-list, module-versions and
resource queries all succeed, every `*Info` returned by `Gather` carries the providers'
values: the six `Memcache` fields are those of the cache statistics, `CPU` and `RAM` those
of the resource statistics, and `Taskqueue` has name "default" and the `Tasks`,
`OldestETA`, `Executed1Minute`, `InFlight`, `EnforcedRate` of the first queue entry; and
with a signed-in caller such an `*Info` is returned, without error. -/
theorem Gather_carries_provider_values (env : Env) (r : Request) (s : MemcacheStatistics)
    (q : QueueStatistics) (qrest : List QueueStatistics) (names : List String)
    (a : RuntimeStatistics)
    (hm : env.memcacheStats = .ok s)
    (hq : env.taskqueueQueueStats ["default"] 0 = .ok (q :: qrest))
    (hl : env.moduleList = .ok names)
    (hv : ∀ n ∈ names, ∃ vs, env.moduleVersions n = .ok vs)
    (hr : env.runtimeStats = .ok a) :
    (∀ (i : Info) (oe : Option GoError),
      (Gather env r).1 = .ret { info := some i, err := oe } →
        oe = none ∧
        i.Memcache.Hits = s.Hits ∧ i.Memcache.Misses = s.Misses ∧
        i.Memcache.ByteHits = s.ByteHits ∧ i.Memcache.Items = s.Items ∧
        i.Memcache.Bytes = s.Bytes ∧ i.Memcache.Oldest = s.Oldest ∧
        i.CPU.Total = a.CPU.Total ∧ i.CPU.Rate1M = a.CPU.Rate1M ∧
        i.CPU.Rate10M = a.CPU.Rate10M ∧
        i.RAM.Current = a.RAM.Current ∧ i.RAM.Average1M = a.RAM.Average1M ∧
        i.RAM.Average10M = a.RAM.Average10M ∧
        i.Taskqueue.Name = "default" ∧ i.Taskqueue.Tasks = q.Tasks ∧
        i.Taskqueue.OldestETA = q.OldestETA ∧
        i.Taskqueue.Executed1Minute = q.Executed1Minute ∧
        i.Taskqueue.InFlight = q.InFlight ∧ i.Taskqueue.EnforcedRate = q.EnforcedRate) ∧
    (∀ u, env.userCurrent = some u →
      ∃ i, (Gather env r).1 = .ret { info := some i, err := none }) := by
  have hc : cacheStepPasses env := by
    intro e he
    rw [hm] at he
    cases he
  constructor
  · intro i oe hi
    obtain ⟨q2, qrest2, names2, modules, a2, u, _, hq2, _, _, hr2, _, hi2, hoe⟩ :=
      Gather_success_inv env r i oe hi
    rw [hq] at hq2
    rw [hr] at hr2
    simp only [Except.ok.injEq, List.cons.injEq] at hq2 hr2
    obtain ⟨hq3, _⟩ := hq2
    subst hq3 hr2 hi2
    simp [hoe, snapshotOf, cacheRecord, hm]
  · intro u hu
    obtain ⟨modules, _, hg⟩ := Gather_success env r q qrest names a u hc hq hl hv hr hu
    exact ⟨_, by rw [hg]⟩

/-- C7, on the sample platform: the snapshot holds hits 10, misses 2, three tasks. -/
theorem Gather_carries_provider_values_witness :
    ∃ i, (Gather sampleEnv sampleRequest).1 = .ret { info := some i, err := none } ∧
      i.Memcache.Hits = 10 ∧ i.Memcache.Misses = 2 ∧ i.Taskqueue.Tasks = 3 ∧
      i.CPU.Total = ⟨1⟩ ∧ i.RAM.Average10M = ⟨6⟩ := by
  have h := Gather_carries_provider_values sampleEnv sampleRequest
    { Hits := 10, Misses := 2, ByteHits := 300, Items := 4, Bytes := 500, Oldest := 60 }
    { Tasks := 3, OldestETA := ⟨100, 0⟩, Executed1Minute := 7, InFlight := 1, EnforcedRate := ⟨5⟩ }
    [] ["default", "worker"] { CPU := ⟨⟨1⟩, ⟨2⟩, ⟨3⟩⟩, RAM := ⟨⟨4⟩, ⟨5⟩, ⟨6⟩⟩ } rfl rfl rfl
    (by
      intro n _
      by_cases hn : n = "default"
      · exact ⟨["v1", "v2"], by simp [sampleEnv, hn]⟩
      · exact ⟨["w1"], by simp [sampleEnv, hn]⟩)
    rfl
  obtain ⟨i, hi⟩ := h.2 { Email := "admin@example.com", Admin := true } rfl
  have hf := h.1 i none hi
  exact ⟨i, hi, hf.2.1, hf.2.2.1, hf.2.2.2.2.2.2.2.2.2.2.2.2.2.2.1, hf.2.2.2.2.2.2.2.1,
    hf.2.2.2.2.2.2.2.2.2.2.2.2.1⟩

/-- C8: for every successful `Gather`, the module-list query returned some names and the
`Modules` of the returned `*Info` has one entry per name, in the same order: the lengths
agree, and the k-th entry has the k-th name and the version list `module.Versions`
returned for that name. With an empty module list (the other queries succeeding, a caller
signed in) `Gather` succeeds and `Modules` is empty. -/
theorem Gather_modules_follow_module_list (env : Env) (r : Request) :
    (∀ i : Info, (Gather env r).1 = .ret { info := some i, err := none } →
      ∃ names, env.moduleList = .ok names ∧
        i.Modules.length = names.length ∧
        ∀ (k : Nat) (n : String), names[k]? = some n →
          ∃ m : Module, i.Modules[k]? = some m ∧ m.Name = n ∧
            env.moduleVersions n = .ok m.Versions) ∧
    (∀ (q : QueueStatistics) (qrest : List QueueStatistics) (a : RuntimeStatistics)
        (u : User),
      cacheStepPasses env →
      env.taskqueueQueueStats ["default"] 0 = .ok (q :: qrest) →
      env.moduleList = .ok [] →
      env.runtimeStats = .ok a →
      env.userCurrent = some u →
      ∃ i, (Gather env r).1 = .ret { info := some i, err := none } ∧ i.Modules = []) := by
  constructor
  · intro i hi
    obtain ⟨q, qrest, names, modules, a, u, _, _, hl, hms, _, _, hi2, _⟩ :=
      Gather_success_inv env r i none hi
    subst hi2
    obtain ⟨hlen, hidx⟩ := forall₂_moduleFor_index env names modules hms
    exact ⟨names, hl, hlen, hidx⟩
  · intro q qrest a u hc hq hl hr hu
    obtain ⟨modules, hms, hg⟩ :=
      Gather_success env r q qrest [] a u hc hq hl (by intro n hn; simp at hn) hr hu
    cases hms
    exact ⟨_, by rw [hg], rfl⟩

/-- C8, on the sample platform (modules "default" and "worker") and on the platform with
no module. -/
theorem Gather_modules_follow_module_list_witness :
    (∃ i, (Gather sampleEnv sampleRequest).1 = .ret { info := some i, err := none } ∧
      i.Modules.length = 2 ∧
      ∃ m : Module, i.Modules[1]? = some m ∧ m.Name = "worker" ∧
        sampleEnv.moduleVersions "worker" = .ok m.Versions) ∧
    (∃ i, (Gather envNoModules sampleRequest).1 = .ret { info := some i, err := none } ∧
      i.Modules = []) := by
  constructor
  · obtain ⟨i, hi⟩ : ∃ i, (Gather sampleEnv sampleRequest).1
        = .ret { info := some i, err := none } := ⟨_, rfl⟩
    obtain ⟨names, hl, hlen, hidx⟩ :=
      (Gather_modules_follow_module_list sampleEnv sampleRequest).1 _ hi
    have hnames : names = ["default", "worker"] := by
      have : sampleEnv.moduleList = .ok ["default", "worker"] := rfl
      rw [this] at hl
      cases hl
      rfl
    subst hnames
    exact ⟨_, hi, hlen, hidx 1 "worker" rfl⟩
  · exact (Gather_modules_follow_module_list envNoModules sampleRequest).2
      { Tasks := 3, OldestETA := ⟨100, 0⟩, Executed1Minute := 7, InFlight := 1, EnforcedRate := ⟨5⟩ }
      [] { CPU := ⟨⟨1⟩, ⟨2⟩, ⟨3⟩⟩, RAM := ⟨⟨4⟩, ⟨5⟩, ⟨6⟩⟩ }
      { Email := "admin@example.com", Admin := true }
      (by intro e he; simp [envNoModules, sampleEnv] at he) rfl rfl rfl rfl

/-- C9: first failure wins. `Gather` returns the error of the earliest failing step in the
order cache, queue stats, module list, module versions (in list order), resource stats,
whatever the later queries would answer, and the queries it issued end with the failing
one. For the cache (not the sentinel), module-list, module-versions and resource-stats
steps the error returned is the error the provider returned. -/
theorem Gather_first_failure_wins (env : Env) (r : Request) :
    (∀ e, env.memcacheStats = .error e → e ≠ GoError.ErrNoStats →
      Gather env r = (.ret { info := none, err := some e }, [Query.memcacheStats])) ∧
    (cacheStepPasses env →
      ((∃ e, env.taskqueueQueueStats ["default"] 0 = .error e)
        ∨ env.taskqueueQueueStats ["default"] 0 = .ok []) →
      Gather env r
        = (.ret { info := none, err := some (fmtErrorf "unable to gather taskqueue stats") },
           [Query.memcacheStats, Query.taskqueueQueueStats ["default"] 0])) ∧
    (∀ q qrest, cacheStepPasses env →
      env.taskqueueQueueStats ["default"] 0 = .ok (q :: qrest) →
      (∀ e, env.moduleList = .error e →
        Gather env r = (.ret { info := none, err := some e },
          [Query.memcacheStats, Query.taskqueueQueueStats ["default"] 0,
            Query.moduleList])) ∧
      (∀ pre n post e, env.moduleList = .ok (pre ++ n :: post) →
        (∀ m ∈ pre, ∃ vs, env.moduleVersions m = .ok vs) →
        env.moduleVersions n = .error e →
        Gather env r = (.ret { info := none, err := some e },
          [Query.memcacheStats, Query.taskqueueQueueStats ["default"] 0, Query.moduleList]
            ++ (pre ++ [n]).map Query.moduleVersions)) ∧
      (∀ names e, env.moduleList = .ok names →
        (∀ n ∈ names, ∃ vs, env.moduleVersions n = .ok vs) →
        env.runtimeStats = .error e →
        Gather env r = (.ret { info := none, err := some e },
          [Query.memcacheStats, Query.taskqueueQueueStats ["default"] 0, Query.moduleList]
            ++ names.map Query.moduleVersions ++ [Query.runtimeStats]))) := by
  refine ⟨fun e he hne => Gather_cache_abort env r e he hne,
    fun hc hq => Gather_queue_abort env r hc hq,
    fun q qrest hc hq => ⟨?_, ?_, ?_⟩⟩
  · intro e hl
    exact Gather_list_abort env r q qrest e hc hq hl
  · intro pre n post e hl hpre hn
    exact Gather_versions_abort env r q qrest pre n post e hc hq hl hpre hn
  · intro names e hl hv hr
    exact Gather_runtime_abort env r q qrest names e hc hq hl hv hr

/-- C9, on a platform where every query fails (the cache error is returned after a single
query) and on one where the second module's versions and the resource statistics both
fail (the versions error is returned, the resource statistics are not queried). -/
theorem Gather_first_failure_wins_witness :
    Gather envAllFail sampleRequest
      = (.ret { info := none, err := some (GoError.mk "cache down") },
         [Query.memcacheStats]) ∧
    Gather envWorkerFails sampleRequest
      = (.ret { info := none, err := some (GoError.mk "versions down") },
         [Query.memcacheStats, Query.taskqueueQueueStats ["default"] 0, Query.moduleList,
          Query.moduleVersions "default", Query.moduleVersions "worker"]) :=
  ⟨(Gather_first_failure_wins envAllFail sampleRequest).1 (GoError.mk "cache down") rfl
      (by decide),
   ((Gather_first_failure_wins envWorkerFails sampleRequest).2.2
      { Tasks := 3, OldestETA := ⟨100, 0⟩, Executed1Minute := 7, InFlight := 1, EnforcedRate := ⟨5⟩ }
      [] (by intro e he; simp [envWorkerFails, sampleEnv] at he) rfl).2.1
      ["default"] "worker" [] (GoError.mk "versions down") rfl
      (by
        intro m hm
        simp only [List.mem_singleton] at hm
        subst hm
        exact ⟨["v1", "v2"], rfl⟩)
      rfl⟩

/-- C10 on the code: on the development server with nobody signed in and every query
succeeding, the access gate is bypassed, `user.Current(c)` is nil, and `Gather` panics on
`user.Current(c).Email` after the last query instead of returning an `*Info`; the handler
writes nothing. -/
theorem Gather_panics_on_nil_user :
    envDevNoUser.IsDevAppServer = true ∧
    envDevNoUser.userCurrent = none ∧
    (Gather envDevNoUser sampleRequest).1
      = .panic "runtime error: invalid memory address or nil pointer dereference" ∧
    (aeinfoHandler envDevNoUser sampleRequest).writes
      = .panic "runtime error: invalid memory address or nil pointer dereference" ∧
    (aeinfoHandler envDevNoUser sampleRequest).queries
      = [Query.memcacheStats, Query.taskqueueQueueStats ["default"] 0, Query.moduleList,
         Query.moduleVersions "default", Query.moduleVersions "worker",
         Query.runtimeStats] := by
  refine ⟨rfl, rfl, by decide, by decide, by decide⟩

end Aeinfo
